import Mathlib

/-!
Shallow embedding of the bevy-undo2 undo coordinator (src/lib.rs).

The crate wires four systems into the host tick loop:
  PreUpdate  (only while state = None):  request_undo_system, then
             undo_wait_event_system (chained, so the second runs after the
             first within the same tick and sees events it sent);
  PostUpdate (state = RequestUndo):      reset_state_system;
  PostUpdate (state = CommitReservations): reserve_reset_system.

Host model (from the spec, section 5): a state transition requested in the
early phase is visible to the gated finalizers of the same tick; the
transition requested by a finalizer applies no later than the start of the
next tick, before any gated system runs.  Event queues carry unit payloads;
a reader consumes events it has read and unread events stay pending
(each event type here has exactly one reader, so a queue plus a consumed
count collapses to a single pending count).

The counter and reserve modules of the crate are not under src/; their
operations are modelled from the spec, section 4.1.
-/

/-- Phase state of the coordinator: the UndoState enum of src/lib.rs
(None, RequestUndo, CommitReservations; None is the default). -/
inductive UndoState where
  | none
  | requestUndo
  | commitReservations
deriving DecidableEq, Repr

/-- Versioned undo entry: payload `inner` stamped with version `no`,
as consumed by pop_if_has_latest in src/lib.rs (the struct itself lives
in the undo_event module; only the two fields used there are needed). -/
structure UndoEvent (E : Type) where
  inner : E
  no : Nat
deriving DecidableEq, Repr

/-- UndoStack.pop_if_has_latest of src/lib.rs: find the position of the
first entry whose `no` equals the counter value, remove it and return its
payload; return none and leave the stack unchanged when no entry matches.
The Rust `position` then `remove` pair is fused into one structural scan. -/
def pop_if_has_latest {E : Type} : List (UndoEvent E) → Nat → Option E × List (UndoEvent E)
  | [], _ => (none, [])
  | u :: rest, c =>
    if u.no = c then
      (some u.inner, rest)
    else
      let r := pop_if_has_latest rest c
      (r.1, u :: r.2)

/-- Modelled from the spec: UndoCounter.decrement of the missing counter
module (section 4.1); a decrement below zero is a caller contract
violation, so results are only meaningful when the value is positive. -/
def counterDecrement (n : Nat) : Nat := n - 1

/-- Modelled from the spec: compound addition of one counter into another
(section 4.1), used for folding the reservation counter into the cursor. -/
def counterAdd (a b : Nat) : Nat := a + b

/-- Modelled from the spec: ReserveCounter.reset of the missing reserve
module (section 4.1), sets the accumulator back to zero. -/
def counterReset : Nat := 0

/-- Coordinator state visible to the four systems: current phase, the two
counters, the Posted flag, and the pending-event counts of the four unit
event queues (request-undo, the two reservation-commit sources, undo-wait). -/
structure Machine where
  phase : UndoState
  cursor : Nat
  reserve : Nat
  posted : Bool
  qUndo : Nat
  qResSched : Nat
  qResDirect : Nat
  qWait : Nat
deriving DecidableEq, Repr

/-- Output of request_undo_system: the updated machine, the NextState
set calls it performed (in order), and how many UndoWaitEvents it sent. -/
structure ReqOut where
  m : Machine
  sets : List UndoState
  waitsSent : Nat
deriving DecidableEq, Repr

/-- Output of undo_wait_event_system: the updated machine and how many
RequestUndoEvents it re-issued. -/
structure WaitOut where
  m : Machine
  reissues : Nat
deriving DecidableEq, Repr

/-- Reservation branch of request_undo_system (src/lib.rs lines 107-111):
set NextState to CommitReservations; then, if an undo request is also
pending, consume one and send one UndoWaitEvent. -/
def commitBranch (m : Machine) : ReqOut :=
  if 0 < m.qUndo then
    { m := { m with qUndo := m.qUndo - 1, qWait := m.qWait + 1 },
      sets := [UndoState.commitReservations],
      waitsSent := 1 }
  else
    { m := m, sets := [UndoState.commitReservations], waitsSent := 0 }

/-- request_undo_system of src/lib.rs: `reserve_reader.iter().next()` is
short-circuit disjunction over the two reservation readers, each consuming
at most one event; if either fired, take the reservation branch; otherwise
if an undo request is pending, consume one, clear Posted and set NextState
to RequestUndo; otherwise do nothing. -/
def request_undo_system (m : Machine) : ReqOut :=
  if 0 < m.qResSched then
    commitBranch { m with qResSched := m.qResSched - 1 }
  else if 0 < m.qResDirect then
    commitBranch { m with qResDirect := m.qResDirect - 1 }
  else if 0 < m.qUndo then
    { m := { m with qUndo := m.qUndo - 1, posted := false },
      sets := [UndoState.requestUndo],
      waitsSent := 0 }
  else
    { m := m, sets := [], waitsSent := 0 }

/-- undo_wait_event_system of src/lib.rs: if an UndoWaitEvent is pending,
consume one, clear Posted and send one fresh RequestUndoEvent. -/
def undo_wait_event_system (m : Machine) : WaitOut :=
  if 0 < m.qWait then
    { m := { m with qWait := m.qWait - 1, posted := false, qUndo := m.qUndo + 1 },
      reissues := 1 }
  else
    { m := m, reissues := 0 }

/-- reset_state_system of src/lib.rs (RequestUndo finalizer): if Posted is
true, decrement the cursor counter; set NextState back to None.  Posted is
taken by shared reference in the source, so it is read and never written
here. -/
def reset_state_system (m : Machine) : Machine × UndoState :=
  (if m.posted then { m with cursor := counterDecrement m.cursor } else m,
   UndoState.none)

/-- reserve_reset_system of src/lib.rs (CommitReservations finalizer):
fold the reservation counter into the cursor, reset the reservation
counter, set NextState back to None. -/
def reserve_reset_system (m : Machine) : Machine × UndoState :=
  ({ m with cursor := counterAdd m.cursor m.reserve, reserve := counterReset },
   UndoState.none)

/-- External stimulus arriving during one tick: events raised by the
application before the early phase, the reservation magnitude the
contributors add alongside their commit requests (spec section 6), and
whether the external dispatch collaborator actually popped and replayed an
entry during a RequestUndo phase (which sets Posted). -/
structure TickInput where
  newUndo : Nat
  newResSched : Nat
  newResDirect : Nat
  resMagnitude : Nat
  dispatched : Bool
deriving DecidableEq, Repr

/-- Delivery of the external stimulus at the start of a tick: the raised
events join their queues and the contributed magnitude joins the
reservation counter. -/
def deliver (m : Machine) (i : TickInput) : Machine :=
  { m with
    qUndo := m.qUndo + i.newUndo,
    qResSched := m.qResSched + i.newResSched,
    qResDirect := m.qResDirect + i.newResDirect,
    reserve := counterAdd m.reserve i.resMagnitude }

/-- Output of the early phase: updated machine, the NextState set calls of
request_undo_system, the UndoWaitEvents it sent, and the RequestUndoEvents
re-issued by undo_wait_event_system. -/
structure PreOut where
  m : Machine
  sets : List UndoState
  waitsSent : Nat
  reissues : Nat
deriving DecidableEq, Repr

/-- Early phase of one tick: both PreUpdate systems run, chained in order,
gated on the current phase being None (the gating state does not change
during the early phase because NextState applies later). -/
def preUpdate (m : Machine) : PreOut :=
  if m.phase = UndoState.none then
    let r := request_undo_system m
    let w := undo_wait_event_system r.m
    { m := w.m, sets := r.sets, waitsSent := r.waitsSent, reissues := w.reissues }
  else
    { m := m, sets := [], waitsSent := 0, reissues := 0 }

/-- Middle of the tick, external collaborator: while the RequestUndo phase
is active, the undo payload registry may pop the stack and set Posted
(spec section 6); `dispatched` reports whether it did. -/
def updatePhase (m : Machine) (dispatched : Bool) : Machine :=
  if m.phase = UndoState.requestUndo ∧ dispatched = true then
    { m with posted := true }
  else
    m

/-- Late phase of one tick: the finalizer gated on the active phase runs
(reset_state_system for RequestUndo, reserve_reset_system for
CommitReservations, none while Idle) and returns its NextState set call. -/
def postUpdate (m : Machine) : Machine × Option UndoState :=
  match m.phase with
  | UndoState.requestUndo =>
    let r := reset_state_system m
    (r.1, some r.2)
  | UndoState.commitReservations =>
    let r := reserve_reset_system m
    (r.1, some r.2)
  | UndoState.none => (m, none)

/-- NextState semantics: among the set calls queued this phase, the last
one wins; with no set call the current phase stays. -/
def lastSet (sets : List UndoState) (cur : UndoState) : UndoState :=
  match sets with
  | [] => cur
  | s :: rest => lastSet rest s

/-- Application of the early-phase NextState set before the gated
finalizers run, per the host model of spec section 5. -/
def midState (p : PreOut) : Machine :=
  { p.m with phase := lastSet p.sets p.m.phase }

/-- Application of the finalizer NextState set at the tick boundary,
before any gated system of the next tick runs. -/
def applyBoundary (q : Machine × Option UndoState) : Machine :=
  { q.1 with phase := q.2.getD q.1.phase }

/-- One full tick under the host model of spec section 5: deliver external
stimulus, run the early phase, apply its NextState set before the gated
finalizers, let the external collaborator act, run the finalizer, and
apply its NextState set at the tick boundary. -/
def tick (m : Machine) (i : TickInput) : Machine :=
  applyBoundary (postUpdate (updatePhase (midState (preUpdate (deliver m i))) i.dispatched))

/-- Initial coordinator state installed by UndoPlugin.build: default phase
None, both counters zero, Posted false, no pending events. -/
def initialMachine : Machine :=
  { phase := UndoState.none, cursor := 0, reserve := 0, posted := false,
    qUndo := 0, qResSched := 0, qResDirect := 0, qWait := 0 }

/-- Helper: pop_if_has_latest returns none and leaves the stack unchanged
when no entry carries the requested version. -/
theorem pop_if_has_latest_no_match {E : Type} (c : Nat) :
    ∀ s : List (UndoEvent E), (∀ u ∈ s, u.no ≠ c) →
      pop_if_has_latest s c = (none, s) := by
  intro s
  induction s with
  | nil => intro _; rfl
  | cons u rest ih =>
    intro h
    have hu : u.no ≠ c := h u (List.mem_cons_self u rest)
    have hrest : ∀ v ∈ rest, v.no ≠ c := fun v hv => h v (List.mem_cons_of_mem u hv)
    simp [pop_if_has_latest, hu, ih hrest]

/-- Helper: a successful pop removes exactly one matching entry, so the
number of matching entries drops by one. -/
theorem pop_if_has_latest_count {E : Type} (c : Nat) :
    ∀ (s s2 : List (UndoEvent E)) (e : E),
      pop_if_has_latest s c = (some e, s2) →
      s2.countP (fun u => u.no == c) + 1 = s.countP (fun u => u.no == c) := by
  intro s
  induction s with
  | nil => intro s2 e h; simp [pop_if_has_latest] at h
  | cons u rest ih =>
    intro s2 e h
    by_cases hu : u.no = c
    · simp [pop_if_has_latest, hu] at h
      simp [List.countP_cons, hu, h.2.symm]
    · simp [pop_if_has_latest, hu] at h
      obtain ⟨h1, h2⟩ := h
      cases hrec : pop_if_has_latest rest c with
      | mk r1 r2 =>
        rw [hrec] at h1 h2
        simp at h1
        subst h1
        have := ih r2 e hrec
        simp [← h2, List.countP_cons, hu, ← this]

/-- C3: for every cursor value c and every reservation value r accumulated
during a cycle, the CommitReservations finalizer leaves the cursor equal
to c + r, resets the reservation counter to zero, and sets the phase back
to Idle (None). -/
theorem reserve_reset_fold_correct (m : Machine) :
    (reserve_reset_system m).1.cursor = m.cursor + m.reserve ∧
    (reserve_reset_system m).1.reserve = 0 ∧
    (reserve_reset_system m).2 = UndoState.none := by
  simp [reserve_reset_system, counterAdd, counterReset]

/-- C4: at RequestUndo finalization, if Posted is true the cursor
decreases by exactly one (under the caller contract of spec section 7
that the cursor is positive when a decrement happens); if Posted is false
the cursor is unchanged; in both cases the phase is set back to Idle. -/
theorem reset_state_decrement_exact (m : Machine) :
    (m.posted = true → 0 < m.cursor →
      (reset_state_system m).1.cursor + 1 = m.cursor) ∧
    (m.posted = false → (reset_state_system m).1.cursor = m.cursor) ∧
    (reset_state_system m).2 = UndoState.none := by
  refine ⟨?_, ?_, rfl⟩
  · intro hp hc
    simp [reset_state_system, hp, counterDecrement]
    omega
  · intro hp
    simp [reset_state_system, hp]

/-- Witness for C4 at a concrete machine with Posted set and cursor 2,
and at one with Posted clear. -/
theorem reset_state_decrement_exact_witness :
    (reset_state_system
      { phase := UndoState.requestUndo, cursor := 2, reserve := 0, posted := true,
        qUndo := 0, qResSched := 0, qResDirect := 0, qWait := 0 }).1.cursor + 1 = 2 ∧
    (reset_state_system
      { phase := UndoState.requestUndo, cursor := 2, reserve := 0, posted := false,
        qUndo := 0, qResSched := 0, qResDirect := 0, qWait := 0 }).1.cursor = 2 :=
  ⟨(reset_state_decrement_exact _).1 rfl (by decide),
   (reset_state_decrement_exact _).2.1 rfl⟩

/-- C10: regardless of how many signals of each kind are pending, the
request evaluation performs at most one NextState transition and sends at
most one undo-wait signal per tick, and the wait-conversion system
re-issues at most one undo-request signal per tick. -/
theorem at_most_one_transition_per_tick (m : Machine) :
    (request_undo_system m).sets.length ≤ 1 ∧
    (request_undo_system m).waitsSent ≤ 1 ∧
    (undo_wait_event_system m).reissues ≤ 1 := by
  refine ⟨?_, ?_, ?_⟩
  · unfold request_undo_system commitBranch
    repeat' split
    all_goals simp
  · unfold request_undo_system commitBranch
    repeat' split
    all_goals simp
  · unfold undo_wait_event_system
    split <;> simp

/-- C7: pop_if_has_latest returns the payload of the first entry in
arrival order whose stamped version equals the cursor value and removes
that entry while preserving the order of the rest; when no entry matches,
it returns none and the stack is unchanged.  When several entries share
the version, only the first encountered is removed and returned. -/
theorem pop_if_has_latest_correct {E : Type} (c : Nat) :
    (∀ s : List (UndoEvent E), (∀ u ∈ s, u.no ≠ c) →
      pop_if_has_latest s c = (none, s)) ∧
    (∀ (pre post : List (UndoEvent E)) (u : UndoEvent E),
      (∀ v ∈ pre, v.no ≠ c) → u.no = c →
      pop_if_has_latest (pre ++ u :: post) c = (some u.inner, pre ++ post)) := by
  constructor
  · exact pop_if_has_latest_no_match c
  · intro pre
    induction pre with
    | nil =>
      intro post u _ hu
      simp [pop_if_has_latest, hu]
    | cons v rest ih =>
      intro post u h hu
      have hv : v.no ≠ c := h v (List.mem_cons_self v rest)
      have hrest : ∀ w ∈ rest, w.no ≠ c := fun w hw => h w (List.mem_cons_of_mem v hw)
      simp [pop_if_has_latest, hv, ih post u hrest hu]

/-- Witness for C7: a concrete pop in the middle of a stack, and a miss. -/
theorem pop_if_has_latest_correct_witness :
    pop_if_has_latest
      [(⟨5, 1⟩ : UndoEvent Nat), ⟨7, 2⟩, ⟨9, 3⟩] 2 = (some 7, [⟨5, 1⟩, ⟨9, 3⟩]) ∧
    pop_if_has_latest [(⟨5, 1⟩ : UndoEvent Nat), ⟨9, 3⟩] 2 =
      (none, [⟨5, 1⟩, ⟨9, 3⟩]) :=
  ⟨(pop_if_has_latest_correct 2).2 [⟨5, 1⟩] [⟨9, 3⟩] ⟨7, 2⟩ (by decide) rfl,
   (pop_if_has_latest_correct 2).1 [⟨5, 1⟩, ⟨9, 3⟩] (by decide)⟩

/-- C8: in a stack with at most one live entry per version, an entry
stamped v is popped at most once: after a successful pop at cursor value
v, a second pop with the same unchanged cursor value returns none and
leaves the stack unchanged. -/
theorem pop_if_has_latest_no_double_pop {E : Type} (v : Nat)
    (s : List (UndoEvent E))
    (hcount : s.countP (fun u => u.no == v) ≤ 1)
    (e : E) (s2 : List (UndoEvent E))
    (hpop : pop_if_has_latest s v = (some e, s2)) :
    pop_if_has_latest s2 v = (none, s2) := by
  have hc := pop_if_has_latest_count v s s2 e hpop
  have hzero : s2.countP (fun u => u.no == v) = 0 := by omega
  have hnone : ∀ u ∈ s2, u.no ≠ v := by
    intro u hu
    have := List.countP_eq_zero.mp hzero u hu
    simpa using this
  exact pop_if_has_latest_no_match v s2 hnone

/-- Witness for C8: popping version 1 from a singleton stack, then
popping again returns none. -/
theorem pop_if_has_latest_no_double_pop_witness :
    pop_if_has_latest ([] : List (UndoEvent Nat)) 1 = (none, []) :=
  pop_if_has_latest_no_double_pop 1 [(⟨3, 1⟩ : UndoEvent Nat)] (by decide) 3 []
    (by decide)

/-- Helper: in a tick where at least one reservation-commit signal and at
least one undo-request signal are pending, the chained early-phase pair
behaves as follows: request evaluation sets CommitReservations and sends
one wait signal, and the wait system converts that wait in the same pass,
leaving Posted clear, the wait queue as before, and the undo queue
restored by the one re-issued request. -/
theorem pre_commit_facts (m : Machine)
    (hr : 0 < m.qResSched ∨ 0 < m.qResDirect) (hu : 0 < m.qUndo) :
    (request_undo_system m).sets = [UndoState.commitReservations] ∧
    (request_undo_system m).waitsSent = 1 ∧
    (undo_wait_event_system (request_undo_system m).m).reissues = 1 ∧
    (undo_wait_event_system (request_undo_system m).m).m.qWait = m.qWait ∧
    (undo_wait_event_system (request_undo_system m).m).m.qUndo = m.qUndo ∧
    (undo_wait_event_system (request_undo_system m).m).m.posted = false ∧
    (undo_wait_event_system (request_undo_system m).m).m.cursor = m.cursor ∧
    (undo_wait_event_system (request_undo_system m).m).m.reserve = m.reserve ∧
    (undo_wait_event_system (request_undo_system m).m).m.phase = m.phase := by
  by_cases h1 : 0 < m.qResSched
  · simp [request_undo_system, commitBranch, undo_wait_event_system, h1, hu]
    omega
  · have h2 : 0 < m.qResDirect := by
      rcases hr with h | h
      · exact absurd h h1
      · exact h
    simp [request_undo_system, commitBranch, undo_wait_event_system, h1, h2, hu]
    omega

/-- Helper: end-of-tick snapshot of a both-pending tick starting in Idle:
the phase has come back to Idle, the reservation fold has been applied to
the cursor, the reservation counter is reset, the undo queue holds the
re-issued request in place of the consumed one, and the wait queue is as
it started. -/
theorem tick_commit_facts (m : Machine) (i : TickInput)
    (hphase : m.phase = UndoState.none)
    (hr : 0 < (deliver m i).qResSched ∨ 0 < (deliver m i).qResDirect)
    (hu : 0 < (deliver m i).qUndo) :
    (tick m i).phase = UndoState.none ∧
    (tick m i).cursor = (deliver m i).cursor + (deliver m i).reserve ∧
    (tick m i).reserve = 0 ∧
    (tick m i).qUndo = (deliver m i).qUndo ∧
    (tick m i).qWait = (deliver m i).qWait ∧
    (tick m i).posted = false := by
  obtain ⟨ph, cu, re, po, qu, qs, qd, qw⟩ := m
  obtain ⟨nu, ns, nd, rm, dp⟩ := i
  simp only [deliver, counterAdd] at hr hu
  dsimp only at hphase hr hu
  subst hphase
  have hq1 : 0 < qw + 1 := Nat.succ_pos qw
  by_cases h1 : 0 < qs + ns
  · simp [tick, deliver, preUpdate, request_undo_system, commitBranch,
      undo_wait_event_system, midState, lastSet, applyBoundary, updatePhase,
      postUpdate, reserve_reset_system, counterAdd, counterReset, h1, hu, hq1]
    omega
  · have h2 : 0 < qd + nd := hr.resolve_left h1
    simp [tick, deliver, preUpdate, request_undo_system, commitBranch,
      undo_wait_event_system, midState, lastSet, applyBoundary, updatePhase,
      postUpdate, reserve_reset_system, counterAdd, counterReset,
      h1, h2, hu, hq1]
    omega

/-- Helper: a tick that starts in Idle with an empty wait queue ends in
Idle with an empty wait queue, whatever signals arrive. -/
theorem tick_idle_return_aux (m : Machine) (i : TickInput)
    (hphase : m.phase = UndoState.none) (hw : m.qWait = 0) :
    (tick m i).phase = UndoState.none ∧ (tick m i).qWait = 0 := by
  obtain ⟨ph, cu, re, po, qu, qs, qd, qw⟩ := m
  obtain ⟨nu, ns, nd, rm, dp⟩ := i
  dsimp only at hphase hw
  subst hphase
  subst hw
  cases dp <;>
  · by_cases h1 : 0 < qs + ns
    · by_cases hu : 0 < qu + nu <;>
        simp [tick, deliver, preUpdate, request_undo_system, commitBranch,
          undo_wait_event_system, midState, lastSet, applyBoundary, updatePhase,
          postUpdate, reset_state_system, reserve_reset_system,
          counterAdd, counterReset, counterDecrement, h1, hu]
    · by_cases h2 : 0 < qd + nd
      · by_cases hu : 0 < qu + nu <;>
          simp [tick, deliver, preUpdate, request_undo_system, commitBranch,
            undo_wait_event_system, midState, lastSet, applyBoundary, updatePhase,
            postUpdate, reset_state_system, reserve_reset_system,
            counterAdd, counterReset, counterDecrement, h1, h2, hu]
      · by_cases hu : 0 < qu + nu <;>
          simp [tick, deliver, preUpdate, request_undo_system, commitBranch,
            undo_wait_event_system, midState, lastSet, applyBoundary, updatePhase,
            postUpdate, reset_state_system, reserve_reset_system,
            counterAdd, counterReset, counterDecrement, h1, h2, hu]

/-- C9: every tick that starts in Idle ends in Idle at the tick boundary,
so every tick that leaves Idle (entering RequestUndo or
CommitReservations in its early phase) has returned to Idle by the end of
that same tick; moreover no wait signal survives the boundary, so the
only coordination signal the machine itself carries across a tick
boundary is the re-issued undo request produced by the wait path, which
takes effect one tick after the original request was deferred. -/
theorem idle_return (m : Machine) (i : TickInput)
    (hphase : m.phase = UndoState.none) (hw : m.qWait = 0) :
    (tick m i).phase = UndoState.none ∧ (tick m i).qWait = 0 :=
  tick_idle_return_aux m i hphase hw

/-- Witness for C9: one tick from the initial machine with an undo
request, a reservation commit of magnitude two and a direct commit signal
all pending ends back in Idle with an empty wait queue. -/
theorem idle_return_witness :
    (tick initialMachine
      { newUndo := 1, newResSched := 1, newResDirect := 0,
        resMagnitude := 2, dispatched := false }).phase = UndoState.none ∧
    (tick initialMachine
      { newUndo := 1, newResSched := 1, newResDirect := 0,
        resMagnitude := 2, dispatched := false }).qWait = 0 :=
  idle_return initialMachine
    { newUndo := 1, newResSched := 1, newResDirect := 0,
      resMagnitude := 2, dispatched := false } rfl rfl

/-- C2: in an Idle tick where both an undo-request and a
reservation-commit signal (either source) are pending, request evaluation
transitions to CommitReservations (its only set call, so not
RequestUndo) and queues exactly one undo-wait signal; the reservations
are folded into the cursor by the finalizer of that same tick and the
phase is back to Idle at the boundary, so the undo, which was not
serviced this tick, can be serviced no earlier than the tick after the
fold. -/
theorem reservation_priority (m : Machine) (i : TickInput)
    (hphase : m.phase = UndoState.none)
    (hr : 0 < (deliver m i).qResSched ∨ 0 < (deliver m i).qResDirect)
    (hu : 0 < (deliver m i).qUndo) :
    (request_undo_system (deliver m i)).sets = [UndoState.commitReservations] ∧
    (request_undo_system (deliver m i)).waitsSent = 1 ∧
    (tick m i).cursor = (deliver m i).cursor + (deliver m i).reserve ∧
    (tick m i).reserve = 0 ∧
    (tick m i).phase = UndoState.none := by
  obtain ⟨hs, hw1, _⟩ := pre_commit_facts (deliver m i) hr hu
  obtain ⟨hp, hc, hres, _⟩ := tick_commit_facts m i hphase hr hu
  exact ⟨hs, hw1, hc, hres, hp⟩

/-- Witness for C2: mirror of the spec scenario tick B, cursor one and a
reservation of magnitude three committed alongside an undo request. -/
theorem reservation_priority_witness :
    (request_undo_system (deliver
      { phase := UndoState.none, cursor := 1, reserve := 0, posted := false,
        qUndo := 1, qResSched := 0, qResDirect := 1, qWait := 0 }
      { newUndo := 0, newResSched := 0, newResDirect := 0,
        resMagnitude := 3, dispatched := false })).sets =
      [UndoState.commitReservations] ∧
    (request_undo_system (deliver
      { phase := UndoState.none, cursor := 1, reserve := 0, posted := false,
        qUndo := 1, qResSched := 0, qResDirect := 1, qWait := 0 }
      { newUndo := 0, newResSched := 0, newResDirect := 0,
        resMagnitude := 3, dispatched := false })).waitsSent = 1 ∧
    (tick
      { phase := UndoState.none, cursor := 1, reserve := 0, posted := false,
        qUndo := 1, qResSched := 0, qResDirect := 1, qWait := 0 }
      { newUndo := 0, newResSched := 0, newResDirect := 0,
        resMagnitude := 3, dispatched := false }).cursor =
      (deliver
        { phase := UndoState.none, cursor := 1, reserve := 0, posted := false,
          qUndo := 1, qResSched := 0, qResDirect := 1, qWait := 0 }
        { newUndo := 0, newResSched := 0, newResDirect := 0,
          resMagnitude := 3, dispatched := false }).cursor +
      (deliver
        { phase := UndoState.none, cursor := 1, reserve := 0, posted := false,
          qUndo := 1, qResSched := 0, qResDirect := 1, qWait := 0 }
        { newUndo := 0, newResSched := 0, newResDirect := 0,
          resMagnitude := 3, dispatched := false }).reserve ∧
    (tick
      { phase := UndoState.none, cursor := 1, reserve := 0, posted := false,
        qUndo := 1, qResSched := 0, qResDirect := 1, qWait := 0 }
      { newUndo := 0, newResSched := 0, newResDirect := 0,
        resMagnitude := 3, dispatched := false }).reserve = 0 ∧
    (tick
      { phase := UndoState.none, cursor := 1, reserve := 0, posted := false,
        qUndo := 1, qResSched := 0, qResDirect := 1, qWait := 0 }
      { newUndo := 0, newResSched := 0, newResDirect := 0,
        resMagnitude := 3, dispatched := false }).phase = UndoState.none :=
  reservation_priority
    { phase := UndoState.none, cursor := 1, reserve := 0, posted := false,
      qUndo := 1, qResSched := 0, qResDirect := 1, qWait := 0 }
    { newUndo := 0, newResSched := 0, newResDirect := 0,
      resMagnitude := 3, dispatched := false }
    rfl (Or.inr (by decide)) (by decide)

/-- C1: in an Idle tick where an undo-request is pending together with a
reservation-commit signal (so the machine enters CommitReservations),
exactly one wait signal is queued and the wait path produces exactly one
re-issued undo-request signal, never zero and never more than one; the
re-issued request is emitted after request evaluation already ran, so it
sits pending at the tick boundary (the undo queue ends the tick with the
re-issue replacing the consumed original) and is serviced on a subsequent
tick: the next tick with no reservation signal pending evaluates it into
a RequestUndo transition. -/
theorem no_silent_drop (m : Machine) (i : TickInput)
    (hphase : m.phase = UndoState.none) (_hw : m.qWait = 0)
    (hr : 0 < (deliver m i).qResSched ∨ 0 < (deliver m i).qResDirect)
    (hu : 0 < (deliver m i).qUndo) :
    (preUpdate (deliver m i)).waitsSent = 1 ∧
    (preUpdate (deliver m i)).reissues = 1 ∧
    (tick m i).qUndo = (deliver m i).qUndo ∧
    ((tick m i).qResSched = 0 → (tick m i).qResDirect = 0 →
      (preUpdate (tick m i)).sets = [UndoState.requestUndo]) := by
  have hd : (deliver m i).phase = UndoState.none := by
    simp [deliver, hphase]
  obtain ⟨hsets, hw1, hre, hqw, hqu, _⟩ := pre_commit_facts (deliver m i) hr hu
  obtain ⟨hp, _, _, htu, _, _⟩ := tick_commit_facts m i hphase hr hu
  refine ⟨?_, ?_, htu, ?_⟩
  · simp [preUpdate, hd, hw1]
  · simp [preUpdate, hd, hre]
  · intro hz1 hz2
    have hq : 0 < (tick m i).qUndo := by
      rw [htu]
      exact hu
    simp [preUpdate, hp, request_undo_system, hz1, hz2, hq]

/-- Witness for C1: a tick with one undo request and one scheduler-origin
reservation commit pending from Idle with an empty wait queue. -/
theorem no_silent_drop_witness :
    (preUpdate (deliver
      { phase := UndoState.none, cursor := 2, reserve := 0, posted := false,
        qUndo := 0, qResSched := 0, qResDirect := 0, qWait := 0 }
      { newUndo := 1, newResSched := 1, newResDirect := 0,
        resMagnitude := 1, dispatched := false })).waitsSent = 1 ∧
    (preUpdate (deliver
      { phase := UndoState.none, cursor := 2, reserve := 0, posted := false,
        qUndo := 0, qResSched := 0, qResDirect := 0, qWait := 0 }
      { newUndo := 1, newResSched := 1, newResDirect := 0,
        resMagnitude := 1, dispatched := false })).reissues = 1 ∧
    (tick
      { phase := UndoState.none, cursor := 2, reserve := 0, posted := false,
        qUndo := 0, qResSched := 0, qResDirect := 0, qWait := 0 }
      { newUndo := 1, newResSched := 1, newResDirect := 0,
        resMagnitude := 1, dispatched := false }).qUndo =
      (deliver
        { phase := UndoState.none, cursor := 2, reserve := 0, posted := false,
          qUndo := 0, qResSched := 0, qResDirect := 0, qWait := 0 }
        { newUndo := 1, newResSched := 1, newResDirect := 0,
          resMagnitude := 1, dispatched := false }).qUndo ∧
    ((tick
      { phase := UndoState.none, cursor := 2, reserve := 0, posted := false,
        qUndo := 0, qResSched := 0, qResDirect := 0, qWait := 0 }
      { newUndo := 1, newResSched := 1, newResDirect := 0,
        resMagnitude := 1, dispatched := false }).qResSched = 0 →
     (tick
      { phase := UndoState.none, cursor := 2, reserve := 0, posted := false,
        qUndo := 0, qResSched := 0, qResDirect := 0, qWait := 0 }
      { newUndo := 1, newResSched := 1, newResDirect := 0,
        resMagnitude := 1, dispatched := false }).qResDirect = 0 →
     (preUpdate (tick
      { phase := UndoState.none, cursor := 2, reserve := 0, posted := false,
        qUndo := 0, qResSched := 0, qResDirect := 0, qWait := 0 }
      { newUndo := 1, newResSched := 1, newResDirect := 0,
        resMagnitude := 1, dispatched := false })).sets =
       [UndoState.requestUndo]) :=
  no_silent_drop
    { phase := UndoState.none, cursor := 2, reserve := 0, posted := false,
      qUndo := 0, qResSched := 0, qResDirect := 0, qWait := 0 }
    { newUndo := 1, newResSched := 1, newResDirect := 0,
      resMagnitude := 1, dispatched := false }
    rfl rfl (Or.inl (by decide)) (by decide)

/-- C5 counterexample: at RequestUndo finalization reset_state_system only
reads the Posted flag (it is taken by shared reference in src/lib.rs) and
does not clear it: finalizing with Posted set leaves Posted still set,
refuting that the flag is read AND cleared at phase finalization. -/
theorem posted_not_cleared_at_finalize :
    ¬ ((reset_state_system
      { phase := UndoState.requestUndo, cursor := 3, reserve := 0, posted := true,
        qUndo := 0, qResSched := 0, qResDirect := 0, qWait := 0 }).1.posted
      = false) := by
  decide

/-- C5 amended: the Posted flag is read but left unchanged at RequestUndo
finalization; it is reset to false at the start of the next RequestUndo
cycle, by request evaluation when it enters RequestUndo and by the
wait-conversion system when it re-issues a deferred request. -/
theorem posted_lifecycle (m : Machine) :
    (reset_state_system m).1.posted = m.posted ∧
    (m.qResSched = 0 → m.qResDirect = 0 → 0 < m.qUndo →
      (request_undo_system m).m.posted = false ∧
      (request_undo_system m).sets = [UndoState.requestUndo]) ∧
    (0 < m.qWait → (undo_wait_event_system m).m.posted = false) := by
  refine ⟨?_, ?_, ?_⟩
  · unfold reset_state_system
    split <;> simp
  · intro h1 h2 h3
    simp [request_undo_system, h1, h2, h3]
  · intro h
    simp [undo_wait_event_system, h]

/-- Witness for the amended C5 at concrete machines: a finalization with
Posted set leaves it set, entering RequestUndo clears it, and a wait
conversion clears it. -/
theorem posted_lifecycle_witness :
    (reset_state_system
      { phase := UndoState.requestUndo, cursor := 1, reserve := 0, posted := true,
        qUndo := 0, qResSched := 0, qResDirect := 0, qWait := 0 }).1.posted = true ∧
    (request_undo_system
      { phase := UndoState.none, cursor := 1, reserve := 0, posted := true,
        qUndo := 1, qResSched := 0, qResDirect := 0, qWait := 0 }).m.posted = false ∧
    (undo_wait_event_system
      { phase := UndoState.none, cursor := 1, reserve := 0, posted := true,
        qUndo := 0, qResSched := 0, qResDirect := 0, qWait := 1 }).m.posted = false :=
  ⟨(posted_lifecycle
      { phase := UndoState.requestUndo, cursor := 1, reserve := 0, posted := true,
        qUndo := 0, qResSched := 0, qResDirect := 0, qWait := 0 }).1,
   ((posted_lifecycle
      { phase := UndoState.none, cursor := 1, reserve := 0, posted := true,
        qUndo := 1, qResSched := 0, qResDirect := 0, qWait := 0 }).2.1
      rfl rfl (by decide)).1,
   (posted_lifecycle
      { phase := UndoState.none, cursor := 1, reserve := 0, posted := true,
        qUndo := 0, qResSched := 0, qResDirect := 0, qWait := 1 }).2.2
      (by decide)⟩

/-- C6 counterexample: the two PreUpdate systems are chained within the
same tick, so the wait signal queued by request evaluation is converted
by undo_wait_event_system in the very tick it was queued: at the end of
that early phase the wait queue is already empty and one re-issued undo
request is pending, refuting that the conversion happens only on the
following tick and not in the tick the wait was queued. -/
theorem wait_converted_same_tick_counterexample :
    (request_undo_system
      { phase := UndoState.none, cursor := 0, reserve := 0, posted := false,
        qUndo := 1, qResSched := 1, qResDirect := 0, qWait := 0 }).waitsSent = 1 ∧
    (preUpdate
      { phase := UndoState.none, cursor := 0, reserve := 0, posted := false,
        qUndo := 1, qResSched := 1, qResDirect := 0, qWait := 0 }).reissues = 1 ∧
    (preUpdate
      { phase := UndoState.none, cursor := 0, reserve := 0, posted := false,
        qUndo := 1, qResSched := 1, qResDirect := 0, qWait := 0 }).m.qWait = 0 ∧
    (preUpdate
      { phase := UndoState.none, cursor := 0, reserve := 0, posted := false,
        qUndo := 1, qResSched := 1, qResDirect := 0, qWait := 0 }).m.qUndo = 1 := by
  decide

/-- C6 amended: when a wait signal is pending at the wait-conversion
system, it is converted into exactly one fresh undo-request signal with
Posted cleared as part of the conversion, in the same early phase in
which a freshly queued wait was sent (the conversion runs immediately
after request evaluation in the chain); the re-issued request is first
evaluated by request evaluation on the following tick, since the present
tick already consumed its reader. -/
theorem wait_conversion_effects (m : Machine) (h : 0 < m.qWait) :
    (undo_wait_event_system m).reissues = 1 ∧
    (undo_wait_event_system m).m.posted = false ∧
    (undo_wait_event_system m).m.qUndo = m.qUndo + 1 ∧
    (undo_wait_event_system m).m.qWait = m.qWait - 1 := by
  simp [undo_wait_event_system, h]

/-- Witness for the amended C6 with one pending wait signal. -/
theorem wait_conversion_effects_witness :
    (undo_wait_event_system
      { phase := UndoState.none, cursor := 4, reserve := 0, posted := true,
        qUndo := 0, qResSched := 0, qResDirect := 0, qWait := 1 }).reissues = 1 ∧
    (undo_wait_event_system
      { phase := UndoState.none, cursor := 4, reserve := 0, posted := true,
        qUndo := 0, qResSched := 0, qResDirect := 0, qWait := 1 }).m.posted = false ∧
    (undo_wait_event_system
      { phase := UndoState.none, cursor := 4, reserve := 0, posted := true,
        qUndo := 0, qResSched := 0, qResDirect := 0, qWait := 1 }).m.qUndo = 0 + 1 ∧
    (undo_wait_event_system
      { phase := UndoState.none, cursor := 4, reserve := 0, posted := true,
        qUndo := 0, qResSched := 0, qResDirect := 0, qWait := 1 }).m.qWait = 1 - 1 :=
  wait_conversion_effects
    { phase := UndoState.none, cursor := 4, reserve := 0, posted := true,
      qUndo := 0, qResSched := 0, qResDirect := 0, qWait := 1 }
    (by decide)
